import Mathlib

/-!
Shallow embedding of `src/src/gltf_renderer.ts` (WebGPU-Butterfly glTF renderer).

The embedding follows the source file closely:

* the glTF data model (accessors, buffer views, primitives, meshes, skins,
  nodes) is mirrored by structures in namespace `GLTFSpace`, matching the
  names the source imports from `gltf-loader-ts/lib/gltf`;
* the static helpers of class `GLTFUtil` (lines 734-826) become pure
  functions in namespace `GLTFUtil`; the TypeScript `switch` statements
  without a `default` clause return `undefined`, embedded as `Option`
  results returning `none`;
* the methods of class `GltfRenderer` that the claims are about
  (`loadGPUBuffers`, `initConstantBindGroup`, the joint-transform branch of
  `initFrameBindGroup`, `setupPrimitive`, `renderGLTF`, and the camera
  buffer sizes) become functions in namespace `GltfRenderer`.  JavaScript
  property access on `undefined` throws a `TypeError`; every such possible
  crash (an out-of-range accessor or buffer-view index, `skins[0]` on an
  empty skin list) is embedded as an `Option`-valued function returning
  `none` at exactly the points where the source would throw.
-/

namespace GLTFSpace

/-- glTF accessor: a typed view into a buffer view (the fields the renderer
reads: `bufferView`, `byteOffset`, `componentType`, `count`, `type`,
`normalized`). -/
structure Accessor where
  bufferView : Nat
  byteOffset : Nat
  componentType : Nat
  count : Nat
  type : String
  normalized : Bool
deriving DecidableEq, Repr

/-- glTF buffer view: a byte range in the binary blob.  `byteStride = 0`
encodes an absent stride: in the source, `bufferView.byteStride || fallback`
treats both `undefined` and `0` as falsy, so a single `Nat` with `0` for
"absent" is an exact model of that test. -/
structure BufferView where
  byteOffset : Nat
  byteLength : Nat
  byteStride : Nat
deriving DecidableEq, Repr

/-- glTF mesh primitive: attribute-semantic entries in object-key insertion
order (the order `Object.entries` yields), optional index accessor, and a
topology mode. -/
structure MeshPrimitive where
  attributes : List (String × Nat)
  indices : Option Nat
  mode : Nat
deriving DecidableEq, Repr

/-- glTF mesh: an ordered list of primitives. -/
structure Mesh where
  primitives : List MeshPrimitive
deriving DecidableEq, Repr

/-- glTF skin: joint node indices plus the inverse-bind-matrix accessor. -/
structure Skin where
  joints : List Nat
  inverseBindMatrices : Nat
deriving DecidableEq, Repr

/-- glTF node: the renderer only reads the optional mesh reference
(`'mesh' in node`). -/
structure Node where
  mesh : Option Nat
deriving DecidableEq, Repr

/-- The decoded glTF asset, with the fields `GltfRenderer` reads.  `skins`
is `Option` because the source tests `gltf.skins !== undefined`. -/
structure Gltf where
  meshes : List Mesh
  accessors : List Accessor
  bufferViews : List BufferView
  nodes : List Node
  skins : Option (List Skin)
deriving DecidableEq, Repr

end GLTFSpace

namespace GLTFUtil

def GL_BYTE : Nat := 5120
def GL_UNSIGNED_BYTE : Nat := 5121
def GL_SHORT : Nat := 5122
def GL_UNSIGNED_SHORT : Nat := 5123
def GL_UNSIGNED_INT : Nat := 5125
def GL_FLOAT : Nat := 5126

def GL_POINTS : Nat := 0
def GL_LINES : Nat := 1
def GL_LINES_LOOP : Nat := 2
def GL_LINE_STRIP : Nat := 3
def GL_TRIANGLES : Nat := 4
def GL_TRIANGLE_STRIP : Nat := 5
def GL_TRIANGLE_FAN : Nat := 6

/-- `GLTFUtil.componentCountForType` (source lines 756-766). -/
def componentCountForType (type : String) : Nat :=
  if type = "SCALAR" then 1
  else if type = "VEC2" then 2
  else if type = "VEC3" then 3
  else if type = "VEC4" then 4
  else 0

/-- `GLTFUtil.sizeForComponentType` (source lines 768-782). -/
def sizeForComponentType (componentType : Nat) : Nat :=
  if componentType = GL_BYTE then 1
  else if componentType = GL_UNSIGNED_BYTE then 1
  else if componentType = GL_SHORT then 2
  else if componentType = GL_UNSIGNED_SHORT then 2
  else if componentType = GL_UNSIGNED_INT then 4
  else if componentType = GL_FLOAT then 4
  else 0

/-- `GLTFUtil.packedArrayStrideForAccessor` (source lines 784-787). -/
def packedArrayStrideForAccessor (accessor : GLTFSpace.Accessor) : Nat :=
  sizeForComponentType accessor.componentType * componentCountForType accessor.type

/-- `GLTFUtil.gpuFormatForAccessor` (source lines 789-803).  The `switch`
has no `default`, so an unknown component type yields `undefined`,
embedded as `none`. -/
def gpuFormatForAccessor (accessor : GLTFSpace.Accessor) : Option String :=
  let norm := if accessor.normalized then "norm" else "int"
  let count := componentCountForType accessor.type
  let x := if count > 1 then "x" ++ toString count else ""
  if accessor.componentType = GL_BYTE then some ("s" ++ norm ++ "8" ++ x)
  else if accessor.componentType = GL_UNSIGNED_BYTE then some ("u" ++ norm ++ "8" ++ x)
  else if accessor.componentType = GL_SHORT then some ("s" ++ norm ++ "16" ++ x)
  else if accessor.componentType = GL_UNSIGNED_SHORT then some ("u" ++ norm ++ "16" ++ x)
  else if accessor.componentType = GL_UNSIGNED_INT then some ("u" ++ norm ++ "32" ++ x)
  else if accessor.componentType = GL_FLOAT then some ("float32" ++ x)
  else none

/-- `GLTFUtil.gpuPrimitiveTopologyForMode` (source lines 805-815).  The
`switch` covers only points, lines, line-strip, triangles, triangle-strip;
line-loop (2) and triangle-fan (6) fall through to `undefined` (`none`):
there is no `default` clause and no thrown error. -/
def gpuPrimitiveTopologyForMode (mode : Nat) : Option String :=
  if mode = GL_TRIANGLES then some "triangle-list"
  else if mode = GL_TRIANGLE_STRIP then some "triangle-strip"
  else if mode = GL_LINES then some "line-list"
  else if mode = GL_LINE_STRIP then some "line-strip"
  else if mode = GL_POINTS then some "point-list"
  else none

/-- `GLTFUtil.gpuIndexFormatForComponentType` (source lines 817-825): the
`switch` maps unsigned-short to `"uint16"`, unsigned-int to `"uint32"`, and
defaults everything else to `"uint32"`. -/
def gpuIndexFormatForComponentType (componentType : Nat) : String :=
  if componentType = GL_UNSIGNED_SHORT then "uint16"
  else if componentType = GL_UNSIGNED_INT then "uint32"
  else "uint32"

end GLTFUtil

/-- Sequence a list through an `Option`-returning function, failing if any
element fails — the embedding of a JS loop whose body may throw. -/
def optionMap {α β : Type} (f : α → Option β) : List α → Option (List β)
  | [] => some []
  | a :: l =>
    match f a with
    | none => none
    | some b =>
      match optionMap f l with
      | none => none
      | some bs => some (b :: bs)

namespace GltfRenderer

open GLTFSpace GLTFUtil

/-- `Float32Array.BYTES_PER_ELEMENT` is 4. -/
def BYTES_PER_ELEMENT : Nat := 4

/-- `GltfRenderer.FRAMEBUFFERSIZE` (source line 56):
`Float32Array.BYTES_PER_ELEMENT * 36`, the byte size of the 36-float
camera layout (16 + 16 + 3 + 1). -/
def FRAMEBUFFERSIZE : Nat := BYTES_PER_ELEMENT * 36

/-- Size in bytes of the camera uniform buffer as `initFrameBindGroup`
creates it (source line 157): `FRAMEBUFFERSIZE * Float32Array.BYTES_PER_ELEMENT`. -/
def cameraBufferCreateSize : Nat := FRAMEBUFFERSIZE * BYTES_PER_ELEMENT

/-- Size in bytes of the `ArrayBuffer` that `updateCameraBuffer` fills and
writes to the camera buffer (source line 701): `FRAMEBUFFERSIZE`. -/
def cameraBufferWriteSize : Nat := FRAMEBUFFERSIZE

/-- The four `Float32Array` windows `updateCameraBuffer` writes (source
lines 702-705), as (byte offset, float count) pairs: projection matrix,
view matrix, camera position, time. -/
def updateCameraBufferSegments : List (Nat × Nat) :=
  [(0, 16), (16 * BYTES_PER_ELEMENT, 16), (32 * BYTES_PER_ELEMENT, 3),
   (35 * BYTES_PER_ELEMENT, 1)]

/-- The module-level `ShaderLocations` map (source lines 11-18), in
insertion order: POSITION, NORMAL, JOINTS_0, WEIGHTS_0. -/
def ShaderLocations : List (String × Nat) :=
  [("POSITION", 0), ("NORMAL", 1), ("JOINTS_0", 2), ("WEIGHTS_0", 3)]

/-- `GPUPrimitiveBufferInfo` (source lines 21-25).  `buffer` holds the
index of the GPU buffer in `gpuBuffers`; since `loadGPUBuffers` makes that
array index-aligned with the asset's buffer views, this is the accessor's
`bufferView` index. -/
structure GPUPrimitiveBufferInfo where
  buffer : Nat
  offset : Nat
deriving DecidableEq, Repr

/-- One entry of the `GPUVertexBufferLayout[]` array built in
`setupPrimitive` (each entry holds a single attribute; source lines
497-503). -/
structure GPUVertexBufferLayoutEntry where
  arrayStride : Nat
  format : Option String
  shaderLocation : Nat
deriving DecidableEq, Repr

/-- `GPUPrimitiveInfo` (source lines 28-37).  The compiled pipeline is
represented by the data `setupPrimitive` feeds into
`createRenderPipeline`: its vertex-buffer layout list and its topology
(`undefined` = `none` when the mode has no mapping). -/
structure GPUPrimitiveInfo where
  topology : Option String
  bufferLayout : List GPUVertexBufferLayoutEntry
  buffers : List GPUPrimitiveBufferInfo
  drawCount : Nat
  indexBuffer : Option Nat
  indexOffset : Option Nat
  indexType : Option String
deriving DecidableEq, Repr

/-- The inner scan of `primitive.attributes` in the first loop of
`setupPrimitive` (source lines 480-514): iterate the entries in object
order, skip names different from the shader attribute's, and process the
first match (the loop `break`s after it). -/
def findAttr (attrs : List (String × Nat)) (name : String) : Option Nat :=
  (attrs.find? (fun e => e.1 == name)).map (fun e => e.2)

/-- Result of processing one matched attribute in the first loop of
`setupPrimitive`: the pushed vertex-buffer-layout entry, the pushed
draw-time buffer record, and the accessor count assigned to `drawCount`. -/
structure AttrSetup where
  layout : GPUVertexBufferLayoutEntry
  buf : GPUPrimitiveBufferInfo
  count : Nat
deriving DecidableEq, Repr

/-- Body of the first loop of `setupPrimitive` for a matched attribute
(source lines 489-511): look up the accessor and its buffer view (a JS
`TypeError` on an out-of-range index is `none`), build the layout entry
(stride = `bufferView.byteStride || packedArrayStrideForAccessor`, format
from the Format Mapper, offset 0, the shader slot), and record the GPU
buffer (the accessor's buffer view) with the accessor's byte offset. -/
def processAttr (g : Gltf) (loc : Nat) (accIdx : Nat) : Option AttrSetup :=
  match g.accessors.get? accIdx with
  | none => none
  | some accessor =>
    match g.bufferViews.get? accessor.bufferView with
    | none => none
    | some bufferView =>
      some
        { layout :=
            { arrayStride :=
                if bufferView.byteStride ≠ 0 then bufferView.byteStride
                else packedArrayStrideForAccessor accessor,
              format := gpuFormatForAccessor accessor,
              shaderLocation := loc },
          buf := { buffer := accessor.bufferView, offset := accessor.byteOffset },
          count := accessor.count }

/-- First loop of `setupPrimitive` (source lines 476-521): walk the
shader-required attributes in `ShaderLocations` order, appending a layout
entry and a buffer record for each one found in the primitive and updating
`drawCount`; a shader attribute with no glTF counterpart contributes
nothing (the `TODO` branch creates no default buffer). -/
def firstLoop (g : Gltf) (attrs : List (String × Nat)) :
    List (String × Nat) → List GPUVertexBufferLayoutEntry →
    List GPUPrimitiveBufferInfo → Nat →
    Option (List GPUVertexBufferLayoutEntry × List GPUPrimitiveBufferInfo × Nat)
  | [], layouts, bufs, drawCount => some (layouts, bufs, drawCount)
  | (name, loc) :: rest, layouts, bufs, drawCount =>
    match findAttr attrs name with
    | none => firstLoop g attrs rest layouts bufs drawCount
    | some accIdx =>
      match processAttr g loc accIdx with
      | none => none
      | some r =>
        firstLoop g attrs rest (layouts ++ [r.layout]) (bufs ++ [r.buf]) r.count

/-- Second loop of `setupPrimitive` (source lines 525-555).  For each
attribute entry it dereferences the accessor (throwing — `none` — when the
index is out of range), then reads `ShaderLocations[attribName]`.
`ShaderLocations` is a JS `Map`, so bracket access reads object
properties, not map entries: for every glTF attribute semantic (which
never names a `Map.prototype` member) it yields `undefined` and the loop
`continue`s, contributing nothing. -/
def secondLoop (g : Gltf) : List (String × Nat) → Option Unit
  | [] => some ()
  | (_, accIdx) :: rest =>
    match g.accessors.get? accIdx with
    | none => none
    | some _ => secondLoop g rest

/-- `GltfRenderer.setupPrimitive` (source lines 469-605): run the two
attribute loops, create the render pipeline from the accumulated
vertex-buffer layout and the mode's topology (no abort on an unmapped
topology: `createRenderPipeline` is reached with `topology: undefined`),
and store the primitive's GPU state, overriding `drawCount` with the index
accessor's count when the primitive has indices. -/
def setupPrimitive (g : Gltf) (p : MeshPrimitive) : Option GPUPrimitiveInfo :=
  match firstLoop g p.attributes ShaderLocations [] [] 0 with
  | none => none
  | some (layouts, bufs, drawCount) =>
    match secondLoop g p.attributes with
    | none => none
    | some _ =>
      let base : GPUPrimitiveInfo :=
        { topology := gpuPrimitiveTopologyForMode p.mode,
          bufferLayout := layouts,
          buffers := bufs,
          drawCount := drawCount,
          indexBuffer := none,
          indexOffset := none,
          indexType := none }
      match p.indices with
      | none => some base
      | some idx =>
        match g.accessors.get? idx with
        | none => none
        | some accessor =>
          some
            { base with
              indexBuffer := some accessor.bufferView,
              indexOffset := some accessor.byteOffset,
              indexType := some (gpuIndexFormatForComponentType accessor.componentType),
              drawCount := accessor.count }

/-- WebGPU buffer-usage flag constants (the values of the `GPUBufferUsage`
namespace in the WebGPU spec). -/
def GPUBufferUsageCOPY_DST : Nat := 8
def GPUBufferUsageINDEX : Nat := 16
def GPUBufferUsageVERTEX : Nat := 32
def GPUBufferUsageUNIFORM : Nat := 64
def GPUBufferUsageSTORAGE : Nat := 128

/-- Usage tags contributed by one primitive in the scan at the top of
`loadGPUBuffers` (source lines 350-364): the index accessor's buffer view
is tagged `INDEX`, then every attribute accessor's buffer view is tagged
`VERTEX`.  (The source writes each tag twice, once with `Map.set` and once
by property assignment; both stores always carry the same key and value,
so one assignment list models both.) -/
def primitiveUsages (g : Gltf) (p : MeshPrimitive) : Option (List (Nat × Nat)) :=
  match (match p.indices with
         | none => some []
         | some i =>
           match g.accessors.get? i with
           | none => none
           | some a => some [(a.bufferView, GPUBufferUsageINDEX)]) with
  | none => none
  | some idxPart =>
    match optionMap
        (fun (e : String × Nat) =>
          match g.accessors.get? e.2 with
          | none => none
          | some a => some (a.bufferView, GPUBufferUsageVERTEX))
        p.attributes with
    | none => none
    | some attrPart => some (idxPart ++ attrPart)

/-- All primitives of all meshes, in mesh order (the nested loops of
`loadGPUBuffers`, `initializeWebGPUAndGLTF` and `setupPrimitive` all walk
this order). -/
def allPrimitives (g : Gltf) : List MeshPrimitive :=
  (g.meshes.map Mesh.primitives).flatten

/-- The mesh part of the usage scan of `loadGPUBuffers` (source lines
347-365). -/
def meshUsages (g : Gltf) : Option (List (Nat × Nat)) :=
  match optionMap (primitiveUsages g) (allPrimitives g) with
  | none => none
  | some ls => some ls.flatten

/-- The skin part of the usage scan of `loadGPUBuffers` (source lines
367-378): when a skin list exists, the buffer view behind
`skins[0].inverseBindMatrices` is tagged `STORAGE | COPY_DST`; the branch
is guarded by `gltf.skins !== undefined`, so with no skin list nothing is
read and nothing is tagged. -/
def skinUsages (g : Gltf) : Option (List (Nat × Nat)) :=
  match g.skins with
  | none => some []
  | some skins =>
    match skins.head? with
    | none => none
    | some skin =>
      match g.accessors.get? skin.inverseBindMatrices with
      | none => none
      | some a =>
        some [(a.bufferView, Nat.lor GPUBufferUsageSTORAGE GPUBufferUsageCOPY_DST)]

/-- The complete usage-tag store `bufferViewUsages` of `loadGPUBuffers`:
mesh-scan assignments followed by the skin assignment, in program order. -/
def bufferViewUsages (g : Gltf) : Option (List (Nat × Nat)) :=
  match meshUsages g, skinUsages g with
  | some m, some s => some (m ++ s)
  | _, _ => none

/-- Final value stored under key `i` after the assignments run in order
(later `Map.set` calls overwrite earlier ones), `none` when `i` was never
tagged (`bufferViewUsages.has(i)` is false). -/
def lookupLast (assigns : List (Nat × Nat)) (i : Nat) : Option Nat :=
  (assigns.reverse.find? (fun e => e.1 == i)).map (fun e => e.2)

/-- `Math.ceil(byteLength / 4) * 4` (source line 390) on naturals. -/
def roundUp4 (n : Nat) : Nat := ((n + 3) / 4) * 4

/-- A GPU buffer as `loadGPUBuffers` creates it: either a mapped-at-creation
data buffer (size rounded up to a multiple of 4, the tagged usage, filled
from the blob range `[byteOffset, byteOffset + byteLength)` of the view —
source lines 386-402), or the 4-byte `COPY_DST` placeholder labelled
"empty buffer" for an untagged view (source lines 406-412). -/
inductive GPUBufferModel where
  | data (size : Nat) (usage : Nat) (srcOffset : Nat) (srcLength : Nat)
  | empty
deriving DecidableEq, Repr

/-- `GltfRenderer.loadGPUBuffers` (source lines 343-415): scan usages, then
for every buffer-view index `i` in `0 ..< bufferViews.length` push one GPU
buffer — a data buffer when `i` was tagged, the placeholder otherwise. -/
def loadGPUBuffers (g : Gltf) : Option (List GPUBufferModel) :=
  match bufferViewUsages g with
  | none => none
  | some assigns =>
    some ((List.range g.bufferViews.length).map (fun i =>
      match lookupLast assigns i, g.bufferViews.get? i with
      | some usage, some bv =>
        GPUBufferModel.data (roundUp4 bv.byteLength) usage bv.byteOffset bv.byteLength
      | _, _ => GPUBufferModel.empty))

/-- The inverse-bind-matrix buffer bound in the constant tier: either the
GPU buffer of the IBM accessor's buffer view (`gpuBuffers[bufferView]`,
source line 300) or the fresh 16-byte placeholder created when there is no
skin (source lines 305-309). -/
inductive IBMBuffer where
  | fromBufferView (i : Nat)
  | placeholder
deriving DecidableEq, Repr

/-- `GltfRenderer.initConstantBindGroup` (source lines 278-341), projected
onto the data it writes: the four floats stored in the joint-info uniform
buffer (`[hasJoint, jointNum, 0, 0]`, source lines 290-293) and the
inverse-bind-matrix buffer choice.  `hasJoint` is `skins !== undefined ? 1 : 0`;
`jointNum` reads `skins[0].joints.length` only under `hasJoint` (an empty
skin list makes `skins[0]` `undefined` and the read throws — `none`). -/
def initConstantBindGroup (g : Gltf) : Option (List Nat × IBMBuffer) :=
  match g.skins with
  | none => some ([0, 0, 0, 0], IBMBuffer.placeholder)
  | some skins =>
    match skins.head? with
    | none => none
    | some skin =>
      match g.accessors.get? skin.inverseBindMatrices with
      | none => none
      | some accessor =>
        some ([1, skin.joints.length, 0, 0], IBMBuffer.fromBufferView accessor.bufferView)

/-- The byte size of the joint-transform buffer created by
`initFrameBindGroup` (source lines 170-214): with a skin,
`16 * jointNum * instanceNum * Float32Array.BYTES_PER_ELEMENT` where
`jointNum = skins[0].joints.length`; with no skin, the empty buffer of
`4 * Float32Array.BYTES_PER_ELEMENT` bytes. -/
def jointTransformBufferSize (g : Gltf) (instanceNum : Nat) : Option Nat :=
  match g.skins with
  | none => some (4 * BYTES_PER_ELEMENT)
  | some skins =>
    match skins.head? with
    | none => none
    | some skin =>
      some (16 * skin.joints.length * instanceNum * BYTES_PER_ELEMENT)

/-- One recorded draw call of the render pass. -/
inductive DrawCmd where
  | drawIndexed (indexCount : Nat) (instanceCount : Nat)
  | draw (vertexCount : Nat) (instanceCount : Nat)
deriving DecidableEq, Repr

/-- The draw call `renderGLTF` issues for one primitive's stored GPU state
(source lines 662-670): indexed with `drawCount` and the shared instance
count when an index buffer is present, non-indexed with `drawCount` and
the shared instance count otherwise. -/
def drawCommandFor (info : GPUPrimitiveInfo) (instanceCount : Nat) : DrawCmd :=
  match info.indexBuffer with
  | some _ => DrawCmd.drawIndexed info.drawCount instanceCount
  | none => DrawCmd.draw info.drawCount instanceCount

/-- The mesh indices of the mesh-bearing nodes, in node order: the keys of
`nodeGpuData`, which `initNodeBindGroup` fills by walking `gltf.nodes` and
keeping each node with `'mesh' in node` (source lines 269-275), and
`renderGLTF` iterates in that insertion order. -/
def meshNodes (g : Gltf) : List Nat :=
  g.nodes.filterMap GLTFSpace.Node.mesh

/-- The draw calls `renderGLTF` records for one mesh-bearing node (source
lines 649-671): look up the node's mesh, then for each primitive fetch its
stored GPU state — `primitiveGpuData.get(primitive)`, which
`initializeWebGPUAndGLTF` populated with exactly `setupPrimitive`'s result
for that primitive — and issue one draw call. -/
def nodeDraws (g : Gltf) (instanceCount : Nat) (m : Nat) : Option (List DrawCmd) :=
  match g.meshes.get? m with
  | none => none
  | some mesh =>
    match optionMap (setupPrimitive g) mesh.primitives with
    | none => none
    | some infos => some (infos.map (fun info => drawCommandFor info instanceCount))

/-- The draw calls of one frame of `GltfRenderer.renderGLTF` (source lines
607-696), in recording order over the mesh-bearing nodes. -/
def renderGLTF (g : Gltf) (instanceCount : Nat) : Option (List DrawCmd) :=
  match optionMap (nodeDraws g instanceCount) (meshNodes g) with
  | none => none
  | some ls => some ls.flatten

end GltfRenderer

namespace GltfRenderer

open GLTFSpace GLTFUtil

/-- The (shader slot, accessor index) pairs the first loop of
`setupPrimitive` actually processes: for each shader-required attribute in
`ShaderLocations` order, the first entry of `primitive.attributes` with
that semantic, skipped when absent. -/
def foundPairs (attrs shaderLocs : List (String × Nat)) : List (Nat × Nat) :=
  shaderLocs.filterMap (fun nl => (findAttr attrs nl.1).map (fun i => (nl.2, i)))

/-- Position accessor of the test assets: vec3 float, 3 elements, buffer
view 0. -/
def demoAcc0 : Accessor :=
  { bufferView := 0, byteOffset := 0, componentType := 5126, count := 3,
    type := "VEC3", normalized := false }

/-- Index accessor of the test assets: scalar unsigned short, 3 elements,
buffer view 1. -/
def demoAcc1 : Accessor :=
  { bufferView := 1, byteOffset := 0, componentType := 5123, count := 3,
    type := "SCALAR", normalized := false }

/-- Indexed triangle primitive of the test asset. -/
def demoPrimIndexed : MeshPrimitive :=
  { attributes := [("POSITION", 0)], indices := some 1, mode := 4 }

/-- Non-indexed triangle primitive of the test asset. -/
def demoPrimPlain : MeshPrimitive :=
  { attributes := [("POSITION", 0)], indices := none, mode := 4 }

/-- Test asset: one mesh with an indexed and a non-indexed triangle
primitive, one mesh-bearing node, three buffer views of which the third is
referenced by nothing, and no skin. -/
def demoGltf : Gltf :=
  { meshes := [ { primitives := [demoPrimIndexed, demoPrimPlain] } ],
    accessors := [demoAcc0, demoAcc1],
    bufferViews := [ { byteOffset := 0, byteLength := 36, byteStride := 0 },
                     { byteOffset := 36, byteLength := 6, byteStride := 0 },
                     { byteOffset := 44, byteLength := 20, byteStride := 0 } ],
    nodes := [ { mesh := some 0 } ],
    skins := none }

/-- Inverse-bind-matrix accessor of the skinned test asset. -/
def demoAccIBM : Accessor :=
  { bufferView := 2, byteOffset := 0, componentType := 5126, count := 2,
    type := "MAT4", normalized := false }

/-- Skinned variant of the test asset: one skin with two joints whose
inverse-bind matrices live in accessor 2 (buffer view 2). -/
def demoSkinGltf : Gltf :=
  { demoGltf with
    accessors := [demoAcc0, demoAcc1, demoAccIBM],
    skins := some [ { joints := [0, 1], inverseBindMatrices := 2 } ] }

/-- A triangle-fan primitive (mode 6), for the unsupported-topology
scenario. -/
def fanPrim : MeshPrimitive :=
  { attributes := [("POSITION", 0)], indices := none, mode := 6 }

/-- Minimal asset holding only the triangle-fan primitive. -/
def fanGltf : Gltf :=
  { meshes := [ { primitives := [fanPrim] } ],
    accessors := [demoAcc0],
    bufferViews := [ { byteOffset := 0, byteLength := 36, byteStride := 0 } ],
    nodes := [ { mesh := some 0 } ],
    skins := none }

/-- The attribute-setup records the first loop produces on the test
primitives (POSITION only: stride 12, format float32x3, slot 0, buffer
view 0, offset 0, count 3). -/
def demoAttrSetups : List AttrSetup :=
  [ { layout := { arrayStride := 12, format := some "float32x3", shaderLocation := 0 },
      buf := { buffer := 0, offset := 0 },
      count := 3 } ]

/-- The GPU state `setupPrimitive` stores for `demoPrimIndexed`. -/
def demoInfoIndexed : GPUPrimitiveInfo :=
  { topology := some "triangle-list",
    bufferLayout := demoAttrSetups.map AttrSetup.layout,
    buffers := demoAttrSetups.map AttrSetup.buf,
    drawCount := 3,
    indexBuffer := some 1,
    indexOffset := some 0,
    indexType := some "uint16" }

/-- The GPU state `setupPrimitive` stores for `demoPrimPlain`. -/
def demoInfoPlain : GPUPrimitiveInfo :=
  { topology := some "triangle-list",
    bufferLayout := demoAttrSetups.map AttrSetup.layout,
    buffers := demoAttrSetups.map AttrSetup.buf,
    drawCount := 3,
    indexBuffer := none,
    indexOffset := none,
    indexType := none }

end GltfRenderer

theorem optionMap_length {α β : Type} (f : α → Option β) :
    ∀ {l : List α} {ys : List β}, optionMap f l = some ys → ys.length = l.length := by
  intro l
  induction l with
  | nil =>
    intro ys h
    simp only [optionMap, Option.some.injEq] at h
    subst h
    rfl
  | cons a t ih =>
    intro ys h
    simp only [optionMap] at h
    cases hfa : f a with
    | none => rw [hfa] at h; cases h
    | some b =>
      rw [hfa] at h
      cases hmt : optionMap f t with
      | none => rw [hmt] at h; cases h
      | some bs =>
        rw [hmt] at h
        simp only [Option.some.injEq] at h
        subst h
        simp [ih hmt]

theorem optionMap_mem {α β : Type} (f : α → Option β) :
    ∀ {l : List α} {ys : List β} {a : α},
      optionMap f l = some ys → a ∈ l → ∃ b, f a = some b := by
  intro l
  induction l with
  | nil => intro ys a _ ha; cases ha
  | cons x t ih =>
    intro ys a h ha
    simp only [optionMap] at h
    cases hfx : f x with
    | none => rw [hfx] at h; cases h
    | some b =>
      rw [hfx] at h
      cases hmt : optionMap f t with
      | none => rw [hmt] at h; cases h
      | some bs =>
        rcases List.mem_cons.mp ha with rfl | hmem
        · exact ⟨b, hfx⟩
        · exact ih hmt hmem

namespace GltfRenderer

open GLTFSpace GLTFUtil

theorem firstLoop_eq (g : Gltf) (attrs : List (String × Nat)) :
    ∀ (locs : List (String × Nat)) (layouts : List GPUVertexBufferLayoutEntry)
      (bufs : List GPUPrimitiveBufferInfo) (drawCount : Nat),
      firstLoop g attrs locs layouts bufs drawCount =
        match optionMap (fun li => processAttr g li.1 li.2) (foundPairs attrs locs) with
        | none => none
        | some rs =>
          some (layouts ++ rs.map AttrSetup.layout, bufs ++ rs.map AttrSetup.buf,
            (rs.map AttrSetup.count).getLastD drawCount) := by
  intro locs
  induction locs with
  | nil =>
    intro layouts bufs drawCount
    simp [firstLoop, foundPairs, optionMap, List.getLastD]
  | cons nl rest ih =>
    intro layouts bufs drawCount
    obtain ⟨name, loc⟩ := nl
    cases hfind : findAttr attrs name with
    | none =>
      have hfp : foundPairs attrs ((name, loc) :: rest) = foundPairs attrs rest := by
        simp [foundPairs, List.filterMap_cons, hfind]
      rw [hfp]
      simpa [firstLoop, hfind] using ih layouts bufs drawCount
    | some accIdx =>
      have hfp : foundPairs attrs ((name, loc) :: rest) =
          (loc, accIdx) :: foundPairs attrs rest := by
        simp [foundPairs, List.filterMap_cons, hfind]
      rw [hfp]
      cases hpa : processAttr g loc accIdx with
      | none => simp [firstLoop, hfind, hpa, optionMap]
      | some r =>
        have hstep : firstLoop g attrs ((name, loc) :: rest) layouts bufs drawCount =
            firstLoop g attrs rest (layouts ++ [r.layout]) (bufs ++ [r.buf]) r.count := by
          simp [firstLoop, hfind, hpa]
        rw [hstep, ih]
        simp only [optionMap, hpa]
        cases hmt : optionMap (fun li => processAttr g li.1 li.2) (foundPairs attrs rest) with
        | none => rfl
        | some rs =>
          simp only [List.map_cons, List.append_assoc, List.singleton_append,
            List.getLastD_cons]

end GltfRenderer

namespace GltfRenderer

open GLTFSpace GLTFUtil

theorem setupPrimitive_eq (g : Gltf) (p : MeshPrimitive) :
    setupPrimitive g p =
      match optionMap (fun li => processAttr g li.1 li.2)
          (foundPairs p.attributes ShaderLocations) with
      | none => none
      | some rs =>
        match secondLoop g p.attributes with
        | none => none
        | some _ =>
          let base : GPUPrimitiveInfo :=
            { topology := gpuPrimitiveTopologyForMode p.mode,
              bufferLayout := rs.map AttrSetup.layout,
              buffers := rs.map AttrSetup.buf,
              drawCount := (rs.map AttrSetup.count).getLastD 0,
              indexBuffer := none,
              indexOffset := none,
              indexType := none }
          match p.indices with
          | none => some base
          | some idx =>
            match g.accessors.get? idx with
            | none => none
            | some accessor =>
              some
                { base with
                  indexBuffer := some accessor.bufferView,
                  indexOffset := some accessor.byteOffset,
                  indexType := some (gpuIndexFormatForComponentType accessor.componentType),
                  drawCount := accessor.count } := by
  unfold setupPrimitive
  rw [firstLoop_eq]
  cases optionMap (fun li => processAttr g li.1 li.2)
      (foundPairs p.attributes ShaderLocations) with
  | none => rfl
  | some rs => rfl

/-- C3: for every primitive `setupPrimitive` accepts, the recorded
draw-time (buffer, offset) list and the vertex-buffer-layout list compiled
into the pipeline are the two projections of one list of processed shader
attributes (one entry per shader-required attribute found, in
`ShaderLocations` order), so they have equal length and position `i` of
one corresponds to position `i` of the other. -/
theorem setupPrimitive_buffers_match_layout (g : Gltf) (p : MeshPrimitive)
    (info : GPUPrimitiveInfo) (h : setupPrimitive g p = some info) :
    ∃ rs : List AttrSetup,
      optionMap (fun li => processAttr g li.1 li.2)
        (foundPairs p.attributes ShaderLocations) = some rs ∧
      info.bufferLayout = rs.map AttrSetup.layout ∧
      info.buffers = rs.map AttrSetup.buf ∧
      info.buffers.length = info.bufferLayout.length := by
  rw [setupPrimitive_eq] at h
  cases hopt : optionMap (fun li => processAttr g li.1 li.2)
      (foundPairs p.attributes ShaderLocations) with
  | none => rw [hopt] at h; cases h
  | some rs =>
    rw [hopt] at h
    cases hsl : secondLoop g p.attributes with
    | none => simp only [hsl] at h; cases h
    | some u =>
      simp only [hsl] at h
      cases hidx : p.indices with
      | none =>
        simp only [hidx] at h
        cases h
        exact ⟨rs, rfl, rfl, rfl, by simp⟩
      | some idx =>
        simp only [hidx] at h
        cases hacc : g.accessors.get? idx with
        | none => simp only [hacc] at h; cases h
        | some accessor =>
          simp only [hacc] at h
          cases h
          exact ⟨rs, rfl, rfl, rfl, by simp⟩

/-- Witness for C3: the indexed triangle primitive of the test asset. -/
theorem setupPrimitive_buffers_match_layout_witness :
    ∃ rs : List AttrSetup,
      optionMap (fun li => processAttr demoGltf li.1 li.2)
        (foundPairs demoPrimIndexed.attributes ShaderLocations) = some rs ∧
      demoInfoIndexed.bufferLayout = rs.map AttrSetup.layout ∧
      demoInfoIndexed.buffers = rs.map AttrSetup.buf ∧
      demoInfoIndexed.buffers.length = demoInfoIndexed.bufferLayout.length :=
  setupPrimitive_buffers_match_layout demoGltf demoPrimIndexed demoInfoIndexed (by decide)

/-- C8: the draw element count `setupPrimitive` stores is the count of the
last shader attribute processed (`getLastD` over the processed list, 0
when none was found), overridden by the index accessor count whenever
the primitive has indices. -/
theorem setupPrimitive_drawCount_spec (g : Gltf) (p : MeshPrimitive)
    (info : GPUPrimitiveInfo) (h : setupPrimitive g p = some info) :
    (p.indices = none →
      ∃ rs : List AttrSetup,
        optionMap (fun li => processAttr g li.1 li.2)
          (foundPairs p.attributes ShaderLocations) = some rs ∧
        info.drawCount = (rs.map AttrSetup.count).getLastD 0) ∧
    (∀ idx, p.indices = some idx →
      ∃ accessor, g.accessors.get? idx = some accessor ∧
        info.drawCount = accessor.count) := by
  rw [setupPrimitive_eq] at h
  cases hopt : optionMap (fun li => processAttr g li.1 li.2)
      (foundPairs p.attributes ShaderLocations) with
  | none => rw [hopt] at h; cases h
  | some rs =>
    rw [hopt] at h
    cases hsl : secondLoop g p.attributes with
    | none => simp only [hsl] at h; cases h
    | some u =>
      simp only [hsl] at h
      cases hidx : p.indices with
      | none =>
        simp only [hidx] at h
        cases h
        exact ⟨fun _ => ⟨rs, rfl, rfl⟩, fun idx hc => Option.noConfusion hc⟩
      | some idx =>
        simp only [hidx] at h
        cases hacc : g.accessors.get? idx with
        | none => simp only [hacc] at h; cases h
        | some accessor =>
          simp only [hacc] at h
          cases h
          refine ⟨fun hc => Option.noConfusion hc, fun idx2 hidx2 => ?_⟩
          cases hidx2
          exact ⟨accessor, hacc, rfl⟩

/-- Witness for C8: the non-indexed primitive takes the last attribute
count, the indexed primitive the index accessor count. -/
theorem setupPrimitive_drawCount_spec_witness :
    (∃ rs : List AttrSetup,
      optionMap (fun li => processAttr demoGltf li.1 li.2)
        (foundPairs demoPrimPlain.attributes ShaderLocations) = some rs ∧
      demoInfoPlain.drawCount = (rs.map AttrSetup.count).getLastD 0) ∧
    (∃ accessor, demoGltf.accessors.get? 1 = some accessor ∧
      demoInfoIndexed.drawCount = accessor.count) :=
  ⟨(setupPrimitive_drawCount_spec demoGltf demoPrimPlain demoInfoPlain (by decide)).1 rfl,
   (setupPrimitive_drawCount_spec demoGltf demoPrimIndexed demoInfoIndexed (by decide)).2 1 rfl⟩

end GltfRenderer

namespace GltfRenderer

open GLTFSpace GLTFUtil

/-- C1 (code behavior at the divergence): `initFrameBindGroup` creates the
camera uniform buffer with `FRAMEBUFFERSIZE * BYTES_PER_ELEMENT` = 576
bytes — `FRAMEBUFFERSIZE` is already a byte count, so the element size is
applied twice — while `updateCameraBuffer` builds and writes an
`ArrayBuffer` of `FRAMEBUFFERSIZE` = 144 bytes = 36 floats, laid out as
16 + 16 + 3 + 1 floats; the created size is not the 144 bytes the claim
states. -/
theorem cameraBuffer_create_size_bug :
    cameraBufferCreateSize = 576 ∧
    cameraBufferWriteSize = 144 ∧
    36 * BYTES_PER_ELEMENT = 144 ∧
    cameraBufferCreateSize ≠ 36 * BYTES_PER_ELEMENT ∧
    updateCameraBufferSegments = [(0, 16), (64, 16), (128, 3), (140, 1)] := by
  decide

/-- C2 (code behavior at the failing input): the topology mapper returns
no mapping for triangle-fan (mode 6) and line-loop (mode 2), and
`setupPrimitive` on a triangle-fan primitive still succeeds — it reaches
`createRenderPipeline` and stores a `GPUPrimitiveInfo` whose pipeline
topology is `undefined` (`none`) — instead of aborting with an
AssetIncompatibility error (no such error exists anywhere in the code). -/
theorem triangleFan_pipeline_created_no_abort :
    gpuPrimitiveTopologyForMode GL_TRIANGLE_FAN = none ∧
    gpuPrimitiveTopologyForMode GL_LINES_LOOP = none ∧
    setupPrimitive fanGltf fanPrim =
      some
        { topology := none,
          bufferLayout := demoAttrSetups.map AttrSetup.layout,
          buffers := demoAttrSetups.map AttrSetup.buf,
          drawCount := 3,
          indexBuffer := none,
          indexOffset := none,
          indexType := none } := by
  decide

/-- C4: `loadGPUBuffers` produces one GPU buffer per buffer view of the
asset, index-aligned: position `i` of the result is built from buffer view
`i` — a real data buffer (size = the view's byte length rounded up to a
multiple of 4, the usage recorded by the scan, filled from the view's byte
range) exactly when view `i` was tagged by the usage scan (referenced by a
primitive attribute, an index accessor, or the skin's inverse-bind-matrix
accessor), and the minimal placeholder buffer otherwise. -/
theorem loadGPUBuffers_dense_aligned (g : Gltf) (bufs : List GPUBufferModel)
    (h : loadGPUBuffers g = some bufs) :
    bufs.length = g.bufferViews.length ∧
    ∃ assigns, bufferViewUsages g = some assigns ∧
      ∀ i bv, g.bufferViews.get? i = some bv →
        bufs.get? i =
          some
            (match lookupLast assigns i with
             | some usage =>
               GPUBufferModel.data (roundUp4 bv.byteLength) usage bv.byteOffset bv.byteLength
             | none => GPUBufferModel.empty) := by
  unfold loadGPUBuffers at h
  cases hbvu : bufferViewUsages g with
  | none => rw [hbvu] at h; cases h
  | some assigns =>
    rw [hbvu] at h
    simp only [] at h
    cases h
    refine ⟨by simp, assigns, rfl, ?_⟩
    intro i bv hbv
    rw [List.get?_eq_getElem?] at hbv
    have hi : i < g.bufferViews.length := (List.getElem?_eq_some.mp hbv).1
    rw [List.get?_eq_getElem?, List.getElem?_map, List.getElem?_range hi]
    cases hlk : lookupLast assigns i with
    | none => simp [hlk, hbv]
    | some usage => simp [hlk, hbv]

/-- Witness for C4: the three-view test asset (views 0 and 1 referenced,
view 2 unreferenced). -/
theorem loadGPUBuffers_dense_aligned_witness :
    (GPUBufferModel.data 36 32 0 36 ::
      GPUBufferModel.data 8 16 36 6 :: GPUBufferModel.empty :: []).length =
        demoGltf.bufferViews.length ∧
    ∃ assigns, bufferViewUsages demoGltf = some assigns ∧
      ∀ i bv, demoGltf.bufferViews.get? i = some bv →
        (GPUBufferModel.data 36 32 0 36 ::
          GPUBufferModel.data 8 16 36 6 :: GPUBufferModel.empty :: []).get? i =
          some
            (match lookupLast assigns i with
             | some usage =>
               GPUBufferModel.data (roundUp4 bv.byteLength) usage bv.byteOffset bv.byteLength
             | none => GPUBufferModel.empty) :=
  loadGPUBuffers_dense_aligned demoGltf _ (by decide)

/-- C5: the joint-transform buffer of `initFrameBindGroup` is created with
`16 * jointNum * instanceNum` floats (times 4 bytes per float) when the
asset has a skin with `jointNum` joints, and with a fixed 4 floats (16
bytes) when the asset has no skin. -/
theorem jointTransformBufferSize_spec (g : Gltf) (instanceNum : Nat) :
    (g.skins = none →
      jointTransformBufferSize g instanceNum = some (4 * BYTES_PER_ELEMENT)) ∧
    (∀ skins skin, g.skins = some skins → skins.head? = some skin →
      jointTransformBufferSize g instanceNum =
        some (16 * skin.joints.length * instanceNum * BYTES_PER_ELEMENT)) := by
  constructor
  · intro h
    simp [jointTransformBufferSize, h]
  · intro skins skin hs hh
    simp [jointTransformBufferSize, hs, hh]

/-- Witness for C5: both branches, at 3 instances — 16 bytes without a
skin, 16 × 2 joints × 3 instances × 4 bytes = 384 bytes with the two-joint
skin. -/
theorem jointTransformBufferSize_spec_witness :
    jointTransformBufferSize demoGltf 3 = some (4 * BYTES_PER_ELEMENT) ∧
    jointTransformBufferSize demoSkinGltf 3 = some (16 * 2 * 3 * BYTES_PER_ELEMENT) :=
  ⟨(jointTransformBufferSize_spec demoGltf 3).1 rfl,
   (jointTransformBufferSize_spec demoSkinGltf 3).2
     [{ joints := [0, 1], inverseBindMatrices := 2 }]
     { joints := [0, 1], inverseBindMatrices := 2 } rfl rfl⟩

/-- C9: in a frame, the recorded draw list is the concatenation over the
mesh-bearing nodes of their meshes' per-primitive draws; for each such
node, there is exactly one draw command per primitive of its mesh, equal
to `drawCommandFor` of the GPU state `setupPrimitive` stored for that
primitive — indexed with the stored count when an index buffer is present,
non-indexed with the stored count otherwise, both with the externally
supplied instance count. -/
theorem renderGLTF_one_draw_per_primitive (g : Gltf) (instanceCount : Nat)
    (cmds : List DrawCmd) (h : renderGLTF g instanceCount = some cmds) :
    ∃ ls, optionMap (nodeDraws g instanceCount) (meshNodes g) = some ls ∧
      cmds = ls.flatten ∧
      ∀ m ∈ meshNodes g, ∃ mesh infos ds,
        g.meshes.get? m = some mesh ∧
        optionMap (setupPrimitive g) mesh.primitives = some infos ∧
        nodeDraws g instanceCount m = some ds ∧
        infos.length = mesh.primitives.length ∧
        ds = infos.map (fun info => drawCommandFor info instanceCount) := by
  unfold renderGLTF at h
  cases hopt : optionMap (nodeDraws g instanceCount) (meshNodes g) with
  | none => rw [hopt] at h; cases h
  | some ls =>
    rw [hopt] at h
    simp only [] at h
    cases h
    refine ⟨ls, rfl, rfl, ?_⟩
    intro m hm
    obtain ⟨ds, hds⟩ := optionMap_mem (nodeDraws g instanceCount) hopt hm
    have hds2 := hds
    unfold nodeDraws at hds2
    cases hmesh : g.meshes.get? m with
    | none => rw [hmesh] at hds2; cases hds2
    | some mesh =>
      rw [hmesh] at hds2
      simp only [] at hds2
      cases hsp : optionMap (setupPrimitive g) mesh.primitives with
      | none => rw [hsp] at hds2; cases hds2
      | some infos =>
        rw [hsp] at hds2
        simp only [] at hds2
        cases hds2
        exact ⟨mesh, infos, _, rfl, hsp, hds,
          optionMap_length (setupPrimitive g) hsp, rfl⟩

/-- Witness for C9: the spec §8 scenario — one indexed and one non-indexed
triangle primitive, instance count 5, giving one indexed draw of 3
elements and one non-indexed draw of 3 elements. -/
theorem renderGLTF_one_draw_per_primitive_witness :
    ∃ ls, optionMap (nodeDraws demoGltf 5) (meshNodes demoGltf) = some ls ∧
      (DrawCmd.drawIndexed 3 5 :: DrawCmd.draw 3 5 :: []) = ls.flatten ∧
      ∀ m ∈ meshNodes demoGltf, ∃ mesh infos ds,
        demoGltf.meshes.get? m = some mesh ∧
        optionMap (setupPrimitive demoGltf) mesh.primitives = some infos ∧
        nodeDraws demoGltf 5 m = some ds ∧
        infos.length = mesh.primitives.length ∧
        ds = infos.map (fun info => drawCommandFor info 5) :=
  renderGLTF_one_draw_per_primitive demoGltf 5 _ (by decide)

/-- C10: on an asset whose skin list is absent, every skin access is
guarded — the three functions that would otherwise dereference `skins[0]`
all take their no-skin branch and succeed — and the constant-tier
joint-metadata buffer is written with has-skin = 0 and joint-count = 0
(the four floats `[0, 0, 0, 0]`), the inverse-bind-matrix binding is the
placeholder buffer, the joint-transform buffer is the 16-byte placeholder,
and the usage scan tags no inverse-bind-matrix buffer view. -/
theorem noSkin_never_reads_skin0 (g : Gltf) (instanceNum : Nat)
    (h : g.skins = none) :
    initConstantBindGroup g = some ([0, 0, 0, 0], IBMBuffer.placeholder) ∧
    jointTransformBufferSize g instanceNum = some (4 * BYTES_PER_ELEMENT) ∧
    skinUsages g = some [] := by
  refine ⟨?_, ?_, ?_⟩ <;> simp [initConstantBindGroup, jointTransformBufferSize,
    skinUsages, h]

/-- Witness for C10: the skinless test asset. -/
theorem noSkin_never_reads_skin0_witness :
    initConstantBindGroup demoGltf = some ([0, 0, 0, 0], IBMBuffer.placeholder) ∧
    jointTransformBufferSize demoGltf 7 = some (4 * BYTES_PER_ELEMENT) ∧
    skinUsages demoGltf = some [] :=
  noSkin_never_reads_skin0 demoGltf 7 rfl

end GltfRenderer
/-- C6: for a vec3 accessor with component type unsigned byte and the
normalized flag set, `gpuFormatForAccessor` returns `"unorm8x3"`; for a
scalar float accessor it returns `"float32"` with no multiplicity suffix. -/
theorem gpuFormatForAccessor_unorm8x3_float32 (a : GLTFSpace.Accessor) :
    (a.type = "VEC3" → a.componentType = GLTFUtil.GL_UNSIGNED_BYTE → a.normalized = true →
      GLTFUtil.gpuFormatForAccessor a = some "unorm8x3") ∧
    (a.type = "SCALAR" → a.componentType = GLTFUtil.GL_FLOAT →
      GLTFUtil.gpuFormatForAccessor a = some "float32") := by
  obtain ⟨bv, bo, ct, cnt, ty, nm⟩ := a
  constructor
  · intro hty hct hnm
    simp only at hty hct hnm
    subst hty hct hnm
    simp [GLTFUtil.gpuFormatForAccessor, GLTFUtil.componentCountForType,
      GLTFUtil.GL_BYTE, GLTFUtil.GL_UNSIGNED_BYTE]
    rfl
  · intro hty hct
    simp only at hty hct
    subst hty hct
    simp [GLTFUtil.gpuFormatForAccessor, GLTFUtil.componentCountForType,
      GLTFUtil.GL_BYTE, GLTFUtil.GL_UNSIGNED_BYTE, GLTFUtil.GL_SHORT,
      GLTFUtil.GL_UNSIGNED_SHORT, GLTFUtil.GL_UNSIGNED_INT, GLTFUtil.GL_FLOAT]

/-- Witness for C6 at concrete accessors. -/
theorem gpuFormatForAccessor_unorm8x3_float32_witness :
    GLTFUtil.gpuFormatForAccessor
      { bufferView := 0, byteOffset := 0, componentType := 5121, count := 4,
        type := "VEC3", normalized := true } = some "unorm8x3" ∧
    GLTFUtil.gpuFormatForAccessor
      { bufferView := 1, byteOffset := 8, componentType := 5126, count := 9,
        type := "SCALAR", normalized := false } = some "float32" :=
  ⟨(gpuFormatForAccessor_unorm8x3_float32 _).1 rfl rfl rfl,
   (gpuFormatForAccessor_unorm8x3_float32 _).2 rfl rfl⟩

/-- C7: index-format resolution returns `"uint16"` exactly on
unsigned-short (5123) and `"uint32"` on every other component type, and is
deterministic (equal inputs give equal results). -/
theorem gpuIndexFormatForComponentType_spec (c : Nat) :
    (c = GLTFUtil.GL_UNSIGNED_SHORT →
      GLTFUtil.gpuIndexFormatForComponentType c = "uint16") ∧
    (c ≠ GLTFUtil.GL_UNSIGNED_SHORT →
      GLTFUtil.gpuIndexFormatForComponentType c = "uint32") ∧
    GLTFUtil.gpuIndexFormatForComponentType c =
      GLTFUtil.gpuIndexFormatForComponentType c := by
  refine ⟨fun h => ?_, fun h => ?_, rfl⟩
  · subst h; rfl
  · simp only [GLTFUtil.gpuIndexFormatForComponentType, if_neg h, ite_self]

/-- Witness for C7 at unsigned-short (5123) and unsigned-int (5125). -/
theorem gpuIndexFormatForComponentType_spec_witness :
    GLTFUtil.gpuIndexFormatForComponentType 5123 = "uint16" ∧
    GLTFUtil.gpuIndexFormatForComponentType 5125 = "uint32" :=
  ⟨(gpuIndexFormatForComponentType_spec 5123).1 rfl,
   (gpuIndexFormatForComponentType_spec 5125).2.1 (by decide)⟩
